import Mathlib

/-!
Verification of the PropHealth property-health scoring engine
(`src/prophealth-12.py`) against its natural-language specification.

The Python code is shallowly embedded: Python `float` arithmetic on the
small decimal constants of the scoring curves is modelled by exact
rational arithmetic (`ℚ`), Python `int` by `ℤ`/`ℕ`, `round(x, 1)` by
banker's rounding at one decimal (`round1`), `int(x)` truncation toward
zero by `pyInt`, and `datetime` parsing/subtraction by an explicit
Gregorian calendar model (`Date`, `parseDate`, `toOrdinal`) following the
semantics of `datetime.datetime.strptime(s, "%Y-%m-%d")` and
`datetime.date` subtraction.  `next_due` dates are represented as
day-offsets from the (fixed) current date, which preserves their order.
-/

namespace Prophealth

/-- Banker's rounding of a rational to an integer: nearest integer, ties
going to the even neighbour.  This is the integer-level behaviour of
Python's builtin `round`. -/
def roundHalfEven (q : ℚ) : ℤ :=
  if q - ⌊q⌋ < 1/2 then ⌊q⌋
  else if 1/2 < q - ⌊q⌋ then ⌊q⌋ + 1
  else if Even ⌊q⌋ then ⌊q⌋ else ⌊q⌋ + 1

/-- Python's `round(x, 1)`: round to one decimal place, ties to even. -/
def round1 (q : ℚ) : ℚ :=
  (roundHalfEven (q * 10) : ℚ) / 10

/-- Python's `int(x)` on a rational value: truncation toward zero. -/
def pyInt (q : ℚ) : ℤ :=
  if 0 ≤ q then ⌊q⌋ else -⌊-q⌋

/-- Python's `//` on integers: floor division. -/
def pyFloorDiv (a b : ℤ) : ℤ := Int.fdiv a b

/-- A calendar date, as produced by `datetime.date`. -/
structure Date where
  year : ℕ
  month : ℕ
  day : ℕ
deriving DecidableEq, Repr

/-- Gregorian leap-year test (as in the `datetime` module). -/
def isLeap (y : ℕ) : Bool :=
  (y % 4 == 0 && !(y % 100 == 0)) || (y % 400 == 0)

/-- Days in the months strictly before month `m` of a non-leap year. -/
def daysBeforeMonth (m : ℕ) : ℕ :=
  match m with
  | 1 => 0 | 2 => 31 | 3 => 59 | 4 => 90 | 5 => 120 | 6 => 151
  | 7 => 181 | 8 => 212 | 9 => 243 | 10 => 273 | 11 => 304 | 12 => 334
  | _ => 0

/-- Number of days of month `m` in year `y` (Gregorian). -/
def daysInMonth (y m : ℕ) : ℕ :=
  if m = 2 then (if isLeap y then 29 else 28)
  else if m = 4 ∨ m = 6 ∨ m = 9 ∨ m = 11 then 30
  else 31

/-- Proleptic-Gregorian ordinal of a date (days, with 0001-01-01 ↦ 1),
as computed by `datetime.date.toordinal`; date subtraction in the Python
code is the difference of these ordinals. -/
def toOrdinal (d : Date) : ℕ :=
  (d.year - 1) * 365 + (d.year - 1) / 4 - (d.year - 1) / 100
    + (d.year - 1) / 400
    + daysBeforeMonth d.month
    + (if 2 < d.month ∧ isLeap d.year then 1 else 0)
    + d.day

/-- Split a character list at every occurrence of `sep` (the behaviour of
the string splitting underlying `strptime` field extraction). -/
def splitOnCharAux (sep : Char) : List Char → List Char → List (List Char)
  | [], acc => [acc.reverse]
  | c :: rest, acc =>
      if c = sep then acc.reverse :: splitOnCharAux sep rest []
      else splitOnCharAux sep rest (c :: acc)

/-- Split a character list on a separator character. -/
def splitOnChar (sep : Char) (cs : List Char) : List (List Char) :=
  splitOnCharAux sep cs []

/-- Decimal value of a nonempty all-digit character list, else `none`. -/
def digitsToNat (cs : List Char) : Option ℕ :=
  if cs ≠ [] ∧ cs.all (fun c => c.isDigit) then
    some (cs.foldl (fun n c => n * 10 + (c.toNat - 48)) 0)
  else none

/-- Semantics of `datetime.datetime.strptime(s, "%Y-%m-%d").date()`:
the string must be `Y-M-D` with a 4-digit year, 1-2 digit month and day,
and the triple must be a valid Gregorian date (year at least 1, month
1..12, day within the month); otherwise `ValueError` is raised, modelled
as `none`. -/
def parseDate (s : String) : Option Date :=
  match splitOnChar '-' s.data with
  | [ys, ms, ds] =>
    match digitsToNat ys, digitsToNat ms, digitsToNat ds with
    | some y, some m, some d =>
        if ys.length = 4 ∧ (ms.length = 1 ∨ ms.length = 2)
            ∧ (ds.length = 1 ∨ ds.length = 2)
            ∧ 1 ≤ y ∧ 1 ≤ m ∧ m ≤ 12 ∧ 1 ≤ d ∧ d ≤ daysInMonth y m
        then some ⟨y, m, d⟩ else none
    | _, _, _ => none
  | _ => none

/-- The `Property` dataclass (scoring-relevant fields; the image and
document attachments play no role in any scored computation). -/
structure Property where
  address : String
  city : String
  state : String
  zip_code : String
  year_built : ℤ
  square_footage : ℤ
  property_type : String
  roof_material : String
  roof_age : ℤ
  foundation_type : String
  hvac_age : ℤ
  electrical_age : ℤ
  plumbing_age : ℤ
  last_inspection : String
deriving DecidableEq, Repr

/-- The `MaintenanceRecord` dataclass. -/
structure MaintenanceRecord where
  date : String
  category : String
  description : String
  cost : ℚ
  contractor : String
  urgency : String
  property_address : String
deriving DecidableEq, Repr

/-- `national_cost_baseline`: the nine known item types with their
`(min, max, avg)` national dollar figures; `none` for unknown items. -/
def national_cost_baseline (item : String) : Option (ℤ × ℤ × ℤ) :=
  if item = "hvac_service" then some (200, 500, 350)
  else if item = "hvac_replacement" then some (5000, 12000, 7500)
  else if item = "roof_repair" then some (400, 2000, 1000)
  else if item = "roof_replacement" then some (10000, 30000, 15000)
  else if item = "electrical_panel" then some (1500, 4000, 2500)
  else if item = "plumbing_repair" then some (250, 1000, 600)
  else if item = "water_heater" then some (1000, 3500, 1800)
  else if item = "foundation_repair" then some (3000, 25000, 10000)
  else if item = "gutter_replacement" then some (1000, 3000, 1700)
  else none

/-- A regional cost-adjustment entry. -/
structure RegionalInfo where
  multiplier : ℚ
  region : String
  confidence : String
deriving DecidableEq, Repr

/-- The `regional_multipliers` table, keyed by ZIP string. -/
def regional_multipliers (z : String) : Option RegionalInfo :=
  if z = "22701" then some ⟨17/20, "Central Virginia - Rural", "high"⟩
  else if z = "22102" then some ⟨27/20, "Northern Virginia - DC Metro", "high"⟩
  else if z = "default" then some ⟨1, "National Average", "low"⟩
  else none

/-- The `"default"` entry of `regional_multipliers`. -/
def defaultRegional : RegionalInfo := ⟨1, "National Average", "low"⟩

/-- `get_regional_info`: exact ZIP match, else first-character match
against the table keys, else the default entry. -/
def get_regional_info (zip_code : String) : RegionalInfo :=
  match regional_multipliers zip_code with
  | some r => r
  | none =>
    match (if zip_code ≠ "" then
             regional_multipliers (String.mk (zip_code.data.take 1))
           else none) with
    | some r => r
    | none => defaultRegional

/-- Result record of `get_local_cost_estimate`. -/
structure CostEstimate where
  min : ℤ
  max : ℤ
  avg : ℤ
  confidence : String
  region : String
  national_avg : ℤ
deriving DecidableEq, Repr

/-- `get_local_cost_estimate`: scale the national baseline by the
regional multiplier, truncating each figure to an integer; unknown item
types yield the explicit all-zero `"Unknown"` result. -/
def get_local_cost_estimate (item : String) (zip_code : String) : CostEstimate :=
  match national_cost_baseline item with
  | none => ⟨0, 0, 0, "low", "Unknown", 0⟩
  | some (mn, mx, av) =>
    let ri := get_regional_info zip_code
    ⟨pyInt (mn * ri.multiplier), pyInt (mx * ri.multiplier),
     pyInt (av * ri.multiplier), ri.confidence, ri.region, av⟩

/-- `roof_material_expected_lifespans` lookup table. -/
def roof_material_expected_lifespans (m : String) : Option ℤ :=
  if m = "Asphalt Shingles" then some 20
  else if m = "Metal" then some 50
  else if m = "Tile" then some 50
  else if m = "Slate" then some 75
  else if m = "Wood" then some 25
  else if m = "Composite" then some 30
  else if m = "Flat Roof (TPO/EPDM)" then some 20
  else none

/-- `foundation_scores` lookup table. -/
def foundation_scores (f : String) : Option ℤ :=
  if f = "Concrete Slab" then some 85
  else if f = "Basement" then some 90
  else if f = "Crawl Space" then some 75
  else if f = "Pier & Beam" then some 70
  else none

/-- `calculate_age_score(age, expected_life)`: the piecewise-linear
age-degradation curve.  Negative ages are clamped to 0 first; a
non-positive expected life scores 0; ages up to 10 percent of the
expected life score a flat 100; beyond that the score follows the
piecewise curve in the age/life ratio, with a floor of 0 past the
expected life. -/
def calculate_age_score (age expected_life : ℤ) : ℚ :=
  let age2 := if age < 0 then 0 else age
  if expected_life ≤ 0 then 0
  else if (age2 : ℚ) ≤ (expected_life : ℚ) * (1/10) then 100
  else
    let r : ℚ := (age2 : ℚ) / (expected_life : ℚ)
    if r ≤ 1/2 then 100 - r * 20
    else if r ≤ 8/10 then 90 - (r - 1/2) / (3/10) * 30
    else if r < 1 then 60 - (r - 8/10) / (2/10) * 40
    else max 0 (20 - ((age2 : ℚ) - (expected_life : ℚ))
                      / ((expected_life : ℚ) * (2/10)) * 20)

/-- `calculate_structural_score` (the `score` field of its result):
building-age factor (80-year life), foundation-type lookup (default 75),
and roof condition (material-dependent life, default 20), weighted
40/30/30 and rounded to one decimal. -/
def calculate_structural_score (p : Property) (today : Date) : ℚ :=
  let building_age : ℤ := (today.year : ℤ) - p.year_built
  let building_age_score := calculate_age_score building_age 80
  let foundation_score : ℚ := ((foundation_scores p.foundation_type).getD 75 : ℤ)
  let expected_roof_life := (roof_material_expected_lifespans p.roof_material).getD 20
  let roof_condition_score := calculate_age_score p.roof_age expected_roof_life
  round1 (building_age_score * (4/10) + foundation_score * (3/10)
            + roof_condition_score * (3/10))

/-- `calculate_systems_score` (the `score` field): HVAC (18-year life),
electrical (35), plumbing (50), weighted 40/30/30, rounded. -/
def calculate_systems_score (p : Property) : ℚ :=
  let hvac_score := calculate_age_score p.hvac_age 18
  let electrical_score := calculate_age_score p.electrical_age 35
  let plumbing_score := calculate_age_score p.plumbing_age 50
  round1 (hvac_score * (4/10) + electrical_score * (3/10)
            + plumbing_score * (3/10))

/-- `calculate_safety_score` (the `score` field): base 90, minus 15/7
for building age over 50/30 years, minus 5 for electrical systems over
30 years, minus 5 for a missing inspection on an old building or an
inspection more than five years ago; clamped at 0 and rounded.
A `last_inspection` string that fails to parse applies no penalty
(the `ValueError` is swallowed). -/
def calculate_safety_score (p : Property) (today : Date) : ℚ :=
  let age : ℤ := (today.year : ℤ) - p.year_built
  let agePenalty : ℚ := if 50 < age then 15 else if 30 < age then 7 else 0
  let elecPenalty : ℚ := if 30 < p.electrical_age then 5 else 0
  let inspPenalty : ℚ :=
    if p.last_inspection = "N/A" ∧ 20 < age then 5
    else if p.last_inspection ≠ "N/A" then
      match parseDate p.last_inspection with
      | some d =>
          if 5 * 365 < (toOrdinal today : ℤ) - (toOrdinal d : ℤ) then 5 else 0
      | none => 0
    else 0
  round1 (max 0 (90 - agePenalty - elecPenalty - inspPenalty))

/-- `calculate_environmental_score` (the `score` field): constant 80. -/
def calculate_environmental_score (_p : Property) : ℚ :=
  round1 80

/-- `calculate_overall_score` (the `overall_score` field): the fixed
0.3/0.4/0.2/0.1 weighting of the four category scores, rounded to one
decimal. -/
def calculate_overall_score (p : Property) (today : Date) : ℚ :=
  let structural := calculate_structural_score p today
  let systems := calculate_systems_score p
  let safety := calculate_safety_score p today
  let environmental := calculate_environmental_score p
  round1 (structural * (3/10) + systems * (4/10)
            + safety * (2/10) + environmental * (1/10))

/-- A maintenance-schedule task; `next_due` is stored as the day offset
from the current date (`current_date + timedelta(days=n)` in the code),
which determines the same ordering. -/
structure MTask where
  task : String
  frequency : String
  next_due : ℤ
  priority : String
  estimated_cost : ℤ
  description : String
deriving DecidableEq, Repr

/-- The priority rank used as the first sort key:
high = 0, important = 1, routine = 2 (no other priority occurs in any
generated task; other strings are mapped to 3). -/
def priorityRank (s : String) : ℕ :=
  if s = "high" then 0
  else if s = "important" then 1
  else if s = "routine" then 2
  else 3

/-- The sort relation of the final schedule sort: ascending in
`(priority rank, next_due)` lexicographically. -/
def schedLE (a b : MTask) : Bool :=
  decide (priorityRank a.priority < priorityRank b.priority)
    || (decide (priorityRank a.priority = priorityRank b.priority)
          && decide (a.next_due ≤ b.next_due))

/-- The schedule list as built by `generate_maintenance_schedule` before
its final sort: threshold rules on the component ages append tasks
(HVAC ladder, roof, electrical, plumbing, then the unconditional
seasonal tasks). -/
def schedule_tasks (p : Property) : List MTask :=
  let zip_code := p.zip_code
  let hvacTasks : List MTask :=
    if p.hvac_age ≤ 1 then
      let c := get_local_cost_estimate "hvac_service" zip_code
      [⟨"HVAC Filter Check/Replacement", "Every 3 months", 90, "routine",
        max 20 (pyFloorDiv c.min 10),
        "Check and replace air filters as needed."⟩]
    else if (p.hvac_age : ℚ) ≤ 18 * (8/10) then
      let c := get_local_cost_estimate "hvac_service" zip_code
      [⟨"HVAC Annual Service", "Annually", 365, "important", c.avg,
        "Professional tune-up and inspection."⟩]
    else
      let c := get_local_cost_estimate "hvac_replacement" zip_code
      [⟨"HVAC Replacement Planning", "Within 1-2 years", 365, "high", c.avg,
        "Budget and plan for HVAC system replacement."⟩]
  let roofTasks : List MTask :=
    if 10 < p.roof_age then
      let c := get_local_cost_estimate "roof_repair" zip_code
      [⟨"Roof Inspection (detailed for age)", "Annually", 365, "important",
        max 150 c.min,
        "Inspect roof for wear, potential leaks, especially if older than 10 years."⟩]
    else []
  let elecInspTasks : List MTask :=
    if 30 < p.electrical_age then
      let c := get_local_cost_estimate "electrical_panel" zip_code
      [⟨"Electrical System Inspection", "Consider within 1 year", 365,
        "important", max 150 (pyFloorDiv c.min 5),
        "Inspect aging electrical panel and system, especially if over 30 years old."⟩]
    else []
  let elecPanelTasks : List MTask :=
    if (35 : ℚ) * (9/10) < (p.electrical_age : ℚ) then
      [⟨"Consider Electrical Panel Upgrade", "Within 2-3 years", 730, "high",
        (get_local_cost_estimate "electrical_panel" zip_code).avg,
        "Plan for upgrading an old electrical panel if original."⟩]
    else []
  let waterHeaterTasks : List MTask :=
    if 8 < p.plumbing_age then
      let c := get_local_cost_estimate "water_heater" zip_code
      [⟨"Water Heater Check/Service", "Annually if >8yrs old", 365,
        "important", max 100 (pyFloorDiv c.min 10),
        "Inspect water heater. Plan for replacement if near end-of-life."⟩]
    else []
  let pipeTasks : List MTask :=
    if (50 : ℚ) * (8/10) < (p.plumbing_age : ℚ) then
      let c := get_local_cost_estimate "plumbing_repair" zip_code
      [⟨"Major Plumbing Inspection (Pipes)", "Consider within 2 years", 730,
        "high", c.avg,
        "Inspect for potential major plumbing updates (pipes, main lines) if original."⟩]
    else []
  let cg := get_local_cost_estimate "gutter_replacement" zip_code
  let gutter_clean_cost : ℤ :=
    max 150 (if 0 < cg.min then pyFloorDiv cg.min 10 else 150)
  let seasonal : List MTask :=
    [⟨"Gutter Cleaning (Spring)", "Annually (Spring)", 120, "routine",
      gutter_clean_cost, "Clean gutters and downspouts after winter."⟩,
     ⟨"Gutter Cleaning (Fall)", "Annually (Fall)", 300, "routine",
      gutter_clean_cost, "Clean gutters and downspouts before winter."⟩,
     ⟨"Exterior Caulking & Sealing Check", "Annually", 270, "routine", 100,
      "Check windows, doors, and siding for gaps to prevent drafts and water intrusion."⟩,
     ⟨"Smoke & CO Detector Test/Battery Change", "Semi-Annually", 180,
      "important", 10,
      "Test all detectors and replace batteries as needed."⟩]
  hvacTasks ++ roofTasks ++ elecInspTasks ++ elecPanelTasks
    ++ waterHeaterTasks ++ pipeTasks ++ seasonal

/-- `generate_maintenance_schedule`: the task list of `schedule_tasks`,
stably sorted by `(priority rank, next_due)`. -/
def generate_maintenance_schedule (p : Property) : List MTask :=
  (schedule_tasks p).mergeSort schedLE

/-- Deleting a property from the portfolio
(`render_property_management_sidebar`): the first property whose address
equals the selected address is removed, and the maintenance-record list
is filtered to the records whose `property_address` differs; if no
property matches, nothing changes. -/
def delete_property (addr : String) (props : List Property)
    (recs : List MaintenanceRecord) : List Property × List MaintenanceRecord :=
  match props.findIdx? (fun p => p.address == addr) with
  | none => (props, recs)
  | some i =>
      (props.eraseIdx i, recs.filter (fun r => r.property_address != addr))

/-! ### Rounding lemmas -/

/-- Banker's rounding never exceeds an integer upper bound of its input. -/
theorem roundHalfEven_le {q : ℚ} {n : ℤ} (h : q ≤ (n : ℚ)) :
    roundHalfEven q ≤ n := by
  have hfl : (⌊q⌋ : ℚ) ≤ q := Int.floor_le q
  have hlt : ⌊q⌋ ≤ n := by
    have := Int.floor_le_floor h
    rwa [Int.floor_intCast] at this
  unfold roundHalfEven
  split_ifs with h1 h2 h3
  · exact hlt
  · have : (⌊q⌋ : ℚ) < q := by linarith
    have : ⌊q⌋ < n := by
      have : ((⌊q⌋ : ℚ)) < (n : ℚ) := lt_of_lt_of_le this h
      exact_mod_cast this
    omega
  · exact hlt
  · have : (⌊q⌋ : ℚ) < q := by linarith
    have : ⌊q⌋ < n := by
      have : ((⌊q⌋ : ℚ)) < (n : ℚ) := lt_of_lt_of_le this h
      exact_mod_cast this
    omega

/-- Banker's rounding never drops below an integer lower bound of its
input. -/
theorem le_roundHalfEven {q : ℚ} {n : ℤ} (h : (n : ℚ) ≤ q) :
    n ≤ roundHalfEven q := by
  have hup : q < (⌊q⌋ : ℚ) + 1 := Int.lt_floor_add_one q
  have hn1 : n < ⌊q⌋ + 1 → n ≤ ⌊q⌋ := by omega
  unfold roundHalfEven
  split_ifs with h1 h2 h3
  · apply hn1
    have : (n : ℚ) < (⌊q⌋ : ℚ) + 1/2 := by linarith
    have : (n : ℚ) < ((⌊q⌋ + 1 : ℤ) : ℚ) := by push_cast; linarith
    exact_mod_cast this
  · have : (n : ℚ) < ((⌊q⌋ + 1 : ℤ) : ℚ) := by push_cast; linarith
    have := hn1 (by exact_mod_cast this)
    omega
  · apply hn1
    have : (n : ℚ) ≤ (⌊q⌋ : ℚ) + 1/2 := by linarith
    have : (n : ℚ) < ((⌊q⌋ + 1 : ℤ) : ℚ) := by push_cast; linarith
    exact_mod_cast this
  · have : (n : ℚ) < ((⌊q⌋ + 1 : ℤ) : ℚ) := by push_cast; linarith
    have := hn1 (by exact_mod_cast this)
    omega

/-- `round1` respects upper bounds that are exact tenths. -/
theorem round1_le {x : ℚ} {n : ℤ} (h : x ≤ (n : ℚ) / 10) :
    round1 x ≤ (n : ℚ) / 10 := by
  have h10 : x * 10 ≤ (n : ℚ) := by linarith
  have h1 := roundHalfEven_le h10
  have h2 : ((roundHalfEven (x * 10) : ℚ)) ≤ (n : ℚ) := by exact_mod_cast h1
  unfold round1
  linarith

/-- `round1` respects lower bounds that are exact tenths. -/
theorem le_round1 {x : ℚ} {n : ℤ} (h : (n : ℚ) / 10 ≤ x) :
    (n : ℚ) / 10 ≤ round1 x := by
  have h10 : (n : ℚ) ≤ x * 10 := by linarith
  have h1 := le_roundHalfEven h10
  have h2 : (n : ℚ) ≤ ((roundHalfEven (x * 10) : ℚ)) := by exact_mod_cast h1
  unfold round1
  linarith

/-- `round1` fixes exact tenths. -/
theorem round1_fixed (n : ℤ) : round1 ((n : ℚ) / 10) = (n : ℚ) / 10 :=
  le_antisymm (round1_le le_rfl) (le_round1 le_rfl)

/-- `round1` fixes values that are exact tenths, stated via a
multiplication side condition convenient for concrete evaluation. -/
theorem round1_eq_self {x : ℚ} {n : ℤ} (h : x * 10 = (n : ℚ)) :
    round1 x = x := by
  have hx : x = (n : ℚ) / 10 := by
    field_simp at h ⊢
    linarith
  rw [hx, round1_fixed]

/-! ### The age-degradation curve -/

/-- The degradation curve as a function of the clamped age/life ratio. -/
def scoreAux (r : ℚ) : ℚ :=
  if r ≤ 1/10 then 100
  else if r ≤ 1/2 then 100 - r * 20
  else if r ≤ 8/10 then 90 - (r - 1/2) / (3/10) * 30
  else if r < 1 then 60 - (r - 8/10) / (2/10) * 40
  else max 0 (20 - (r - 1) / (2/10) * 20)

/-- For a positive expected life, `calculate_age_score` is the ratio
curve evaluated at the clamped age over the expected life. -/
theorem calculate_age_score_eq_aux {age expected_life : ℤ}
    (hL : 0 < expected_life) :
    calculate_age_score age expected_life
      = scoreAux (((max age 0 : ℤ) : ℚ) / (expected_life : ℚ)) := by
  have hL0 : ¬ (expected_life ≤ 0) := not_le.2 hL
  have hL' : (0:ℚ) < (expected_life : ℚ) := by exact_mod_cast hL
  have hmax : (if age < 0 then (0:ℤ) else age) = max age 0 := by
    split_ifs <;> omega
  have e1 : (((max age 0 : ℤ) : ℚ) ≤ (expected_life : ℚ) * (1/10))
      ↔ (((max age 0 : ℤ) : ℚ) / (expected_life : ℚ) ≤ 1/10) := by
    rw [div_le_iff hL']
    constructor <;> intro h <;> linarith
  simp only [calculate_age_score, scoreAux, hmax, if_neg hL0, e1]
  split_ifs <;> try rfl
  congr 1
  field_simp

/-- The ratio curve is monotonically non-increasing. -/
theorem scoreAux_anti {x y : ℚ} (hx : 0 ≤ x) (hxy : x ≤ y) :
    scoreAux y ≤ scoreAux x := by
  unfold scoreAux
  split_ifs <;>
    first
      | linarith
      | (exact max_le_max (le_refl 0) (by linarith))
      | (exact max_le (by linarith) (by linarith))
      | (exfalso; linarith)

/-- The ratio curve stays within `[0, 100]`. -/
theorem scoreAux_bounds {r : ℚ} (hr : 0 ≤ r) :
    0 ≤ scoreAux r ∧ scoreAux r ≤ 100 := by
  unfold scoreAux
  split_ifs <;> constructor <;>
    first
      | linarith
      | (exact le_max_left 0 _)
      | (exact max_le (by linarith) (by linarith))

/-- `calculate_age_score` always lands in `[0, 100]`. -/
theorem calculate_age_score_bounds (age expected_life : ℤ) :
    0 ≤ calculate_age_score age expected_life
      ∧ calculate_age_score age expected_life ≤ 100 := by
  rcases le_or_lt expected_life 0 with hL | hL
  · have h0 : calculate_age_score age expected_life = 0 := by
      simp [calculate_age_score, hL]
    rw [h0]
    norm_num
  · rw [calculate_age_score_eq_aux hL]
    apply scoreAux_bounds
    have h0 : (0:ℤ) ≤ max age 0 := le_max_right age 0
    have hL' : (0:ℚ) < (expected_life : ℚ) := by exact_mod_cast hL
    apply div_nonneg _ (le_of_lt hL')
    exact_mod_cast h0

/-! ### Claims C1 and C2: the age-degradation curve -/

/-- The age-degradation curve as worded in spec section 4.1.1: zero for a
non-positive expected life; otherwise, with negative age clamped to 0, a
flat 100 up to a tenth of the expected life, then the piecewise-linear
curve in the ratio, clamped at 0 from ratio 1.2 onward. -/
def specAgeScore (age expected_life : ℤ) : ℚ :=
  if expected_life ≤ 0 then 0
  else
    let a : ℤ := max age 0
    if (a : ℚ) ≤ (1/10) * (expected_life : ℚ) then 100
    else
      let r : ℚ := (a : ℚ) / (expected_life : ℚ)
      if r ≤ 1/2 then 100 - r * 20
      else if r ≤ 8/10 then 90 - ((r - 1/2) / (3/10)) * 30
      else if r < 1 then 60 - ((r - 8/10) / (2/10)) * 40
      else max 0 (20 - ((r - 1) / (2/10)) * 20)

/-- The spec curve also factors through the ratio curve. -/
theorem specAgeScore_eq_aux {age expected_life : ℤ}
    (hL : 0 < expected_life) :
    specAgeScore age expected_life
      = scoreAux (((max age 0 : ℤ) : ℚ) / (expected_life : ℚ)) := by
  have hL0 : ¬ (expected_life ≤ 0) := not_le.2 hL
  have hL' : (0:ℚ) < (expected_life : ℚ) := by exact_mod_cast hL
  have e1 : (((max age 0 : ℤ) : ℚ) ≤ (1/10) * (expected_life : ℚ))
      ↔ (((max age 0 : ℤ) : ℚ) / (expected_life : ℚ) ≤ 1/10) := by
    rw [div_le_iff hL']
  simp only [specAgeScore, scoreAux, if_neg hL0, e1]

/-- Claim C1: for every integer age and expected life,
`calculate_age_score` equals the piecewise curve of spec section 4.1.1:
0 when the expected life is non-positive; with negative age clamped to 0,
100 when the age is at most a tenth of the expected life; and with
ratio = age/expected_life, the segments 100 - ratio*20 on (0.1, 0.5],
90 - ((ratio-0.5)/0.3)*30 on (0.5, 0.8], 60 - ((ratio-0.8)/0.2)*40 on
(0.8, 1.0), and max(0, 20 - ((ratio-1.0)/0.2)*20) from 1.0 on, reaching
0 at ratio 1.2. -/
theorem age_score_matches_spec_curve (age expected_life : ℤ) :
    calculate_age_score age expected_life = specAgeScore age expected_life := by
  rcases le_or_lt expected_life 0 with hL | hL
  · simp [calculate_age_score, specAgeScore, hL]
  · rw [calculate_age_score_eq_aux hL, specAgeScore_eq_aux hL]

/-- Claim C2: `calculate_age_score` is monotonically non-increasing in
age for a fixed positive expected life: for nonnegative ages a1 < a2 the
score at a1 is at least the score at a2, across the early-life plateau
boundary and every segment breakpoint. -/
theorem age_score_monotone_in_age (expected_life a1 a2 : ℤ)
    (hL : 0 < expected_life) (h1 : 0 ≤ a1) (h2 : 0 ≤ a2) (h12 : a1 < a2) :
    calculate_age_score a1 expected_life ≥ calculate_age_score a2 expected_life := by
  rw [calculate_age_score_eq_aux hL, calculate_age_score_eq_aux hL,
    max_eq_left h1, max_eq_left h2]
  have hL' : (0:ℚ) < (expected_life : ℚ) := by exact_mod_cast hL
  apply scoreAux_anti
  · exact div_nonneg (by exact_mod_cast h1) (le_of_lt hL')
  · apply (div_le_div_right hL').2
    exact_mod_cast h12.le

/-- Witness for C2 at expected life 10, ages 3 < 7. -/
theorem age_score_monotone_in_age_witness :
    calculate_age_score 3 10 ≥ calculate_age_score 7 10 :=
  age_score_monotone_in_age 10 3 7 (by norm_num) (by norm_num)
    (by norm_num) (by norm_num)

/-! ### Category score bounds; claims C3 and C10 -/

theorem round1_le_of {x b : ℚ} (n : ℤ) (hb : b = (n : ℚ)/10) (h : x ≤ b) :
    round1 x ≤ b := by
  subst hb
  exact round1_le h

theorem le_round1_of {x b : ℚ} (n : ℤ) (hb : b = (n : ℚ)/10) (h : b ≤ x) :
    b ≤ round1 x := by
  subst hb
  exact le_round1 h

theorem foundation_getD_bounds (s : String) :
    (70 : ℚ) ≤ (((foundation_scores s).getD 75 : ℤ) : ℚ)
      ∧ (((foundation_scores s).getD 75 : ℤ) : ℚ) ≤ 90 := by
  unfold foundation_scores
  split_ifs <;> norm_num

theorem calculate_structural_score_bounds (p : Property) (today : Date) :
    0 ≤ calculate_structural_score p today
      ∧ calculate_structural_score p today ≤ 97 := by
  obtain ⟨hb0, hb1⟩ :=
    calculate_age_score_bounds ((today.year : ℤ) - p.year_built) 80
  obtain ⟨hr0, hr1⟩ := calculate_age_score_bounds p.roof_age
    ((roof_material_expected_lifespans p.roof_material).getD 20)
  obtain ⟨hf0, hf1⟩ := foundation_getD_bounds p.foundation_type
  unfold calculate_structural_score
  constructor
  · exact le_round1_of 0 (by norm_num) (by linarith)
  · exact round1_le_of 970 (by norm_num) (by linarith)

theorem calculate_systems_score_bounds (p : Property) :
    0 ≤ calculate_systems_score p ∧ calculate_systems_score p ≤ 100 := by
  obtain ⟨h10, h11⟩ := calculate_age_score_bounds p.hvac_age 18
  obtain ⟨h20, h21⟩ := calculate_age_score_bounds p.electrical_age 35
  obtain ⟨h30, h31⟩ := calculate_age_score_bounds p.plumbing_age 50
  unfold calculate_systems_score
  constructor
  · exact le_round1_of 0 (by norm_num) (by linarith)
  · exact round1_le_of 1000 (by norm_num) (by linarith)

theorem calculate_safety_score_bounds (p : Property) (today : Date) :
    0 ≤ calculate_safety_score p today
      ∧ calculate_safety_score p today ≤ 90 := by
  unfold calculate_safety_score
  have hA : (0:ℚ) ≤ (if 50 < (today.year : ℤ) - p.year_built then (15:ℚ)
      else if 30 < (today.year : ℤ) - p.year_built then 7 else 0) := by
    split_ifs <;> norm_num
  have hB : (0:ℚ) ≤ (if 30 < p.electrical_age then (5:ℚ) else 0) := by
    split_ifs <;> norm_num
  have hC : (0:ℚ) ≤ (if p.last_inspection = "N/A" ∧ 20 < (today.year : ℤ) - p.year_built then (5:ℚ)
      else if p.last_inspection ≠ "N/A" then
        match parseDate p.last_inspection with
        | some d =>
            if 5 * 365 < (toOrdinal today : ℤ) - (toOrdinal d : ℤ) then 5 else 0
        | none => 0
      else 0) := by
    split_ifs <;> try norm_num
    cases parseDate p.last_inspection with
    | none => norm_num
    | some d =>
        dsimp only
        split_ifs <;> norm_num
  constructor
  · exact le_round1_of 0 (by norm_num) (le_max_left 0 _)
  · exact round1_le_of 900 (by norm_num)
      (max_le (by norm_num) (by linarith))

theorem calculate_environmental_score_eq (p : Property) :
    calculate_environmental_score p = 80 := by
  unfold calculate_environmental_score
  rw [@round1_eq_self 80 800 (by norm_num)]

/-- Claim C3: the overall score is the rounded 0.3/0.4/0.2/0.1 weighted
sum of the four (already rounded) category scores, and lies in
`[0, 100]`. -/
theorem overall_score_weighted_sum_and_bounds (p : Property) (today : Date) :
    calculate_overall_score p today
        = round1 (calculate_structural_score p today * (3/10)
            + calculate_systems_score p * (4/10)
            + calculate_safety_score p today * (2/10)
            + calculate_environmental_score p * (1/10))
      ∧ 0 ≤ calculate_overall_score p today
      ∧ calculate_overall_score p today ≤ 100 := by
  obtain ⟨hs0, hs1⟩ := calculate_structural_score_bounds p today
  obtain ⟨hy0, hy1⟩ := calculate_systems_score_bounds p
  obtain ⟨hf0, hf1⟩ := calculate_safety_score_bounds p today
  have he := calculate_environmental_score_eq p
  refine ⟨rfl, ?_, ?_⟩
  · unfold calculate_overall_score
    exact le_round1_of 0 (by norm_num) (by rw [he]; linarith)
  · unfold calculate_overall_score
    exact round1_le_of 1000 (by norm_num) (by rw [he]; linarith)

/-- Claim C10: the overall health score never exceeds 95.1; the
environmental score is the constant 80, the safety score is at most 90,
and the structural score is at most 97, so the weighted sum is bounded
by 0.3*97 + 0.4*100 + 0.2*90 + 0.1*80 = 95.1. -/
theorem overall_score_at_most_95_1 (p : Property) (today : Date) :
    calculate_structural_score p today ≤ 97
      ∧ calculate_safety_score p today ≤ 90
      ∧ calculate_environmental_score p = 80
      ∧ calculate_overall_score p today ≤ 951/10 := by
  obtain ⟨hs0, hs1⟩ := calculate_structural_score_bounds p today
  obtain ⟨hy0, hy1⟩ := calculate_systems_score_bounds p
  obtain ⟨hf0, hf1⟩ := calculate_safety_score_bounds p today
  have he := calculate_environmental_score_eq p
  refine ⟨hs1, hf1, he, ?_⟩
  unfold calculate_overall_score
  exact round1_le_of 951 (by norm_num) (by rw [he]; linarith)
/-! ### Claims C7 and C8: cost estimates -/

/-- Claim C7: for `hvac_replacement` in ZIP 22102 the exact-ZIP regional
multiplier 1.35 scales the national baseline (5000, 12000, 7500) to
min 6750, max 16200, avg 10125 (truncated to integers), with the
unscaled national average 7500 and the region confidence `high`. -/
theorem cost_estimate_hvac_replacement_22102 :
    get_local_cost_estimate "hvac_replacement" "22102"
      = ⟨6750, 16200, 10125, "high", "Northern Virginia - DC Metro", 7500⟩ := by
  unfold get_local_cost_estimate national_cost_baseline get_regional_info
    regional_multipliers
  simp only [String.reduceEq, if_true, if_false, reduceIte]
  simp [pyInt]
  norm_num

/-- Claim C8: every unknown item type yields, for any ZIP, the explicit
all-zero result with region `Unknown` and confidence `low`. -/
theorem cost_estimate_unknown_item (item zip_code : String)
    (h1 : item ≠ "hvac_service") (h2 : item ≠ "hvac_replacement")
    (h3 : item ≠ "roof_repair") (h4 : item ≠ "roof_replacement")
    (h5 : item ≠ "electrical_panel") (h6 : item ≠ "plumbing_repair")
    (h7 : item ≠ "water_heater") (h8 : item ≠ "foundation_repair")
    (h9 : item ≠ "gutter_replacement") :
    get_local_cost_estimate item zip_code
      = ⟨0, 0, 0, "low", "Unknown", 0⟩ := by
  unfold get_local_cost_estimate national_cost_baseline
  simp [h1, h2, h3, h4, h5, h6, h7, h8, h9]

/-- Witness for C8 at a concrete unknown item type. -/
theorem cost_estimate_unknown_item_witness :
    get_local_cost_estimate "septic_service" "22102"
      = ⟨0, 0, 0, "low", "Unknown", 0⟩ :=
  cost_estimate_unknown_item "septic_service" "22102" (by decide) (by decide)
    (by decide) (by decide) (by decide) (by decide) (by decide) (by decide)
    (by decide)

/-! ### Claim C6: schedule ordering -/

/-- The schedule sort relation is transitive. -/
theorem schedLE_trans (a b c : MTask) (hab : schedLE a b = true)
    (hbc : schedLE b c = true) : schedLE a c = true := by
  simp only [schedLE, Bool.or_eq_true, Bool.and_eq_true,
    decide_eq_true_eq] at *
  omega

/-- The schedule sort relation is total. -/
theorem schedLE_total (a b : MTask) : (schedLE a b || schedLE b a) = true := by
  simp only [schedLE, Bool.or_eq_true, Bool.and_eq_true, decide_eq_true_eq]
  omega

/-- Pointwise content of the sort relation: a later high task forces an
earlier high task, a later important task excludes an earlier routine
task, and equal priorities are ordered by due offset. -/
theorem schedLE_implies (a b : MTask) (h : schedLE a b = true) :
    (b.priority = "high" → a.priority = "high")
      ∧ (b.priority = "important" → a.priority ≠ "routine")
      ∧ (a.priority = b.priority → a.next_due ≤ b.next_due) := by
  simp only [schedLE, Bool.or_eq_true, Bool.and_eq_true,
    decide_eq_true_eq] at h
  refine ⟨fun hb => ?_, fun hb ha => ?_, fun hab => ?_⟩
  · have h0 : priorityRank b.priority = 0 := by rw [hb]; rfl
    have ha0 : priorityRank a.priority = 0 := by omega
    by_contra hne
    have hx : priorityRank a.priority ≠ 0 := by
      unfold priorityRank
      split_ifs with h1 h2 h3 <;> simp_all
    exact hx ha0
  · have hb1 : priorityRank b.priority = 1 := by rw [hb]; rfl
    have ha2 : priorityRank a.priority = 2 := by rw [ha]; rfl
    omega
  · have heq : priorityRank a.priority = priorityRank b.priority := by
      rw [hab]
    rcases h with h | ⟨_, h⟩
    · omega
    · exact h

/-- Claim C6: the generated maintenance schedule is sorted by priority
rank (high before important before routine) with non-decreasing
`next_due` within equal priority: pairwise along the output list, a
later high task forces the earlier one to be high, a later important
task forces the earlier one not to be routine, and equal priorities
have non-decreasing due dates. -/
theorem maintenance_schedule_sorted (p : Property) :
    List.Pairwise
      (fun a b =>
        (b.priority = "high" → a.priority = "high")
          ∧ (b.priority = "important" → a.priority ≠ "routine")
          ∧ (a.priority = b.priority → a.next_due ≤ b.next_due))
      (generate_maintenance_schedule p) := by
  unfold generate_maintenance_schedule
  exact List.Pairwise.imp (fun h => schedLE_implies _ _ h)
    (List.sorted_mergeSort schedLE_trans schedLE_total (schedule_tasks p))

/-! ### Claim C9: property deletion cascade -/

/-- A first matching property splits the list at the reported index. -/
theorem findIdx_split (addr : String) :
    ∀ props : List Property, (∃ q ∈ props, q.address = addr) →
      ∃ l1 l2 q, props = l1 ++ q :: l2 ∧ q.address = addr
        ∧ (∀ x ∈ l1, x.address ≠ addr)
        ∧ props.findIdx? (fun p => p.address == addr) = some l1.length := by
  intro props
  induction props with
  | nil => rintro ⟨q, hq, _⟩; cases hq
  | cons p rest ih =>
    intro hex
    by_cases hp : p.address = addr
    · refine ⟨[], rest, p, rfl, hp, by simp, ?_⟩
      simp [List.findIdx?_cons, hp]
    · obtain ⟨q, hq, hqa⟩ := hex
      rcases List.mem_cons.mp hq with hq | hq
      · exact absurd (hq ▸ hqa) hp
      · obtain ⟨l1, l2, q', he, hqa', hl1, hidx⟩ := ih ⟨q, hq, hqa⟩
        refine ⟨p :: l1, l2, q', by rw [he]; rfl, hqa', ?_, ?_⟩
        · intro x hx
          rcases List.mem_cons.mp hx with hx | hx
          · exact hx ▸ hp
          · exact hl1 x hx
        · simp [List.findIdx?_cons, hp, hidx]

/-- Erasing at the length of the prefix removes the split element. -/
theorem eraseIdx_at_prefix_length (l1 : List Property) (q : Property)
    (l2 : List Property) :
    (l1 ++ q :: l2).eraseIdx l1.length = l1 ++ l2 := by
  induction l1 with
  | nil => rfl
  | cons x xs ih => simp [List.eraseIdx, ih]

/-- Claim C9: deleting a property (when one with the given address
exists) leaves exactly the maintenance records whose `property_address`
differs from the deleted address, in their original order, and removes
exactly the first matching property, leaving all other properties
unchanged. -/
theorem delete_property_spec (addr : String) (props : List Property)
    (recs : List MaintenanceRecord)
    (hex : ∃ q ∈ props, q.address = addr) :
    (delete_property addr props recs).2
        = recs.filter (fun r => decide (r.property_address ≠ addr))
      ∧ (∀ r ∈ recs, r.property_address ≠ addr
            ↔ r ∈ (delete_property addr props recs).2)
      ∧ ∃ l1 l2 q, props = l1 ++ q :: l2 ∧ q.address = addr
          ∧ (∀ x ∈ l1, x.address ≠ addr)
          ∧ (delete_property addr props recs).1 = l1 ++ l2 := by
  obtain ⟨l1, l2, q, he, hqa, hl1, hidx⟩ := findIdx_split addr props hex
  have hfun : (fun r : MaintenanceRecord => r.property_address != addr)
      = (fun r => decide (r.property_address ≠ addr)) := by
    funext r
    rw [Bool.eq_iff_iff]
    simp [bne_iff_ne]
  have hdel : delete_property addr props recs
      = (props.eraseIdx l1.length,
          recs.filter (fun r => r.property_address != addr)) := by
    unfold delete_property
    rw [hidx]
  refine ⟨?_, ?_, l1, l2, q, he, hqa, hl1, ?_⟩
  · rw [hdel, hfun]
  · intro r hr
    rw [hdel]
    simp only [List.mem_filter, hfun]
    constructor
    · intro hne
      exact ⟨hr, by simpa using hne⟩
    · intro hmem
      simpa using hmem.2
  · rw [hdel, he]
    exact eraseIdx_at_prefix_length l1 q l2

/-- Witness for C9 on a concrete two-property portfolio with three
maintenance records. -/
theorem delete_property_spec_witness :
    (delete_property "1 Elm St"
          [⟨"1 Elm St", "A", "VA", "22102", 2000, 1000, "t", "Metal", 1,
             "Basement", 1, 1, 1, "N/A"⟩,
           ⟨"2 Oak St", "B", "VA", "22701", 1990, 1200, "t", "Tile", 2,
             "Basement", 2, 2, 2, "N/A"⟩]
          [⟨"2024-01-01", "c", "d", 10, "x", "High", "1 Elm St"⟩,
           ⟨"2024-01-02", "c", "d", 20, "y", "Routine", "2 Oak St"⟩]).2
        = [⟨"2024-01-02", "c", "d", 20, "y", "Routine", "2 Oak St"⟩] := by
  have h := delete_property_spec "1 Elm St"
    [⟨"1 Elm St", "A", "VA", "22102", 2000, 1000, "t", "Metal", 1,
       "Basement", 1, 1, 1, "N/A"⟩,
     ⟨"2 Oak St", "B", "VA", "22701", 1990, 1200, "t", "Tile", 2,
       "Basement", 2, 2, 2, "N/A"⟩]
    [⟨"2024-01-01", "c", "d", 10, "x", "High", "1 Elm St"⟩,
     ⟨"2024-01-02", "c", "d", 20, "y", "Routine", "2 Oak St"⟩]
    ⟨⟨"1 Elm St", "A", "VA", "22102", 2000, 1000, "t", "Metal", 1,
       "Basement", 1, 1, 1, "N/A"⟩, by simp, rfl⟩
  rw [h.1]
  rfl

/-! ### Claim C4: the new-build scenario -/

/-- Early-life plateau of the age curve. -/
theorem age_score_plateau {a L : ℤ} (hL : 0 < L) (ha : 0 ≤ a)
    (h : (a : ℚ) ≤ (L : ℚ) * (1/10)) : calculate_age_score a L = 100 := by
  have h1 : ¬ (a < 0) := not_lt.2 ha
  have hL0 : ¬ (L ≤ 0) := not_le.2 hL
  simp only [calculate_age_score]
  rw [if_neg h1, if_neg hL0, if_pos h]

/-- The new-build scenario property of spec section 8: built 2024, all
component ages 0, basement foundation, metal roof, inspected on the
given date string. -/
def newBuildProperty (li : String) : Property :=
  ⟨"123 Main St", "McLean", "VA", "22102", 2024, 2000, "Single Family",
   "Metal", 0, "Basement", 0, 0, 0, li⟩

theorem newBuild_structural (s : String) (td : Date)
    (h0 : 0 ≤ (td.year : ℤ) - 2024) (h8 : (td.year : ℤ) - 2024 ≤ 8) :
    calculate_structural_score (newBuildProperty s) td = 97 := by
  have hb : calculate_age_score ((td.year : ℤ) - 2024) 80 = 100 := by
    apply age_score_plateau (by norm_num) h0
    have h8' : (((td.year : ℤ) - 2024 : ℤ) : ℚ) ≤ 8 := by exact_mod_cast h8
    push_cast at h8' ⊢
    linarith
  have hr : calculate_age_score 0 50 = 100 :=
    age_score_plateau (by norm_num) le_rfl (by norm_num)
  have hfnd : (foundation_scores "Basement").getD 75 = 90 := by decide
  have hroof : (roof_material_expected_lifespans "Metal").getD 20 = 50 := by
    decide
  simp only [calculate_structural_score, newBuildProperty]
  rw [hfnd, hroof, hb, hr]
  have hval : (100 : ℚ) * (4/10) + ((90 : ℤ) : ℚ) * (3/10)
      + (100 : ℚ) * (3/10) = 97 := by push_cast; norm_num
  rw [hval]
  exact @round1_eq_self 97 970 (by norm_num)

theorem newBuild_systems (s : String) :
    calculate_systems_score (newBuildProperty s) = 100 := by
  have h18 : calculate_age_score 0 18 = 100 :=
    age_score_plateau (by norm_num) le_rfl (by norm_num)
  have h35 : calculate_age_score 0 35 = 100 :=
    age_score_plateau (by norm_num) le_rfl (by norm_num)
  have h50 : calculate_age_score 0 50 = 100 :=
    age_score_plateau (by norm_num) le_rfl (by norm_num)
  simp only [calculate_systems_score, newBuildProperty]
  rw [h18, h35, h50]
  have hval : (100 : ℚ) * (4/10) + (100 : ℚ) * (3/10)
      + (100 : ℚ) * (3/10) = 100 := by norm_num
  rw [hval]
  exact @round1_eq_self 100 1000 (by norm_num)

theorem newBuild_safety (s : String) (td : Date)
    (hp : parseDate s = some td)
    (h8 : (td.year : ℤ) - 2024 ≤ 8) :
    calculate_safety_score (newBuildProperty s) td = 90 := by
  have hsNA : s ≠ "N/A" := by
    intro h
    have hna : parseDate "N/A" = none := by decide
    rw [h, hna] at hp
    exact Option.noConfusion hp
  have h50 : ¬ (50 < (td.year : ℤ) - 2024) := by omega
  have h30 : ¬ (30 < (td.year : ℤ) - 2024) := by omega
  have h30e : ¬ ((30 : ℤ) < 0) := by norm_num
  simp only [calculate_safety_score, newBuildProperty, hp]
  rw [if_neg h50, if_neg h30, if_neg h30e,
    if_neg (by simp [hsNA] :
      ¬ (s = "N/A" ∧ 20 < (td.year : ℤ) - 2024)),
    if_pos hsNA]
  have hd : ¬ ((5 : ℤ) * 365 < (toOrdinal td : ℤ) - (toOrdinal td : ℤ)) := by
    omega
  rw [if_neg hd]
  have hval : (90 : ℚ) - 0 - 0 - 0 = 90 := by norm_num
  rw [hval]
  have hmax : max (0 : ℚ) 90 = 90 := by norm_num
  rw [hmax]
  exact @round1_eq_self 90 900 (by norm_num)

/-- Counterexample to claim C4 as stated: in the new-build scenario
evaluated on 2026-10-12 with a same-day inspection, the overall score is
not 96.1 (it is 95.1; the spec's own expansion 97*0.3 + 100*0.4 + 90*0.2
+ 80*0.1 equals 95.1, not the stated 96.1). -/
theorem newBuild_overall_not_96_1 :
    calculate_overall_score (newBuildProperty "2026-10-12") ⟨2026, 10, 12⟩
      ≠ 961/10 := by
  have hs := newBuild_structural "2026-10-12" ⟨2026, 10, 12⟩
    (by norm_num) (by norm_num)
  have hy := newBuild_systems "2026-10-12"
  have hf := newBuild_safety "2026-10-12" ⟨2026, 10, 12⟩ (by decide)
    (by norm_num)
  have he := calculate_environmental_score_eq (newBuildProperty "2026-10-12")
  simp only [calculate_overall_score]
  rw [hs, hy, hf, he]
  have hval : (97 : ℚ) * (3/10) + 100 * (4/10) + 90 * (2/10) + 80 * (1/10)
      = 951/10 := by norm_num
  rw [hval, @round1_eq_self (951/10 : ℚ) 951 (by norm_num)]
  norm_num

/-- Claim C4 (amended): for the spec section 8 new-build scenario
(year_built 2024, all component ages 0, basement foundation, metal roof,
last inspection on the evaluation date), evaluated at any date whose year
puts the building age in 0..8 (the early-life plateau), the category
scores are structural 97, systems 100, safety 90, environmental 80, and
the overall score is 95.1 — not the 96.1 the claim states, since
97*0.3 + 100*0.4 + 90*0.2 + 80*0.1 = 95.1. -/
theorem newBuild_scenario_scores (td : Date) (s : String)
    (hp : parseDate s = some td)
    (h0 : 0 ≤ (td.year : ℤ) - 2024) (h8 : (td.year : ℤ) - 2024 ≤ 8) :
    calculate_structural_score (newBuildProperty s) td = 97
      ∧ calculate_systems_score (newBuildProperty s) = 100
      ∧ calculate_safety_score (newBuildProperty s) td = 90
      ∧ calculate_environmental_score (newBuildProperty s) = 80
      ∧ calculate_overall_score (newBuildProperty s) td = 951/10 := by
  have hs := newBuild_structural s td h0 h8
  have hy := newBuild_systems s
  have hf := newBuild_safety s td hp h8
  have he := calculate_environmental_score_eq (newBuildProperty s)
  refine ⟨hs, hy, hf, he, ?_⟩
  simp only [calculate_overall_score]
  rw [hs, hy, hf, he]
  have hval : (97 : ℚ) * (3/10) + 100 * (4/10) + 90 * (2/10) + 80 * (1/10)
      = 951/10 := by norm_num
  rw [hval, @round1_eq_self (951/10 : ℚ) 951 (by norm_num)]

/-- Witness for the amended C4 on the concrete date 2026-10-12. -/
theorem newBuild_scenario_scores_witness :
    calculate_structural_score (newBuildProperty "2026-10-12") ⟨2026, 10, 12⟩
        = 97
      ∧ calculate_systems_score (newBuildProperty "2026-10-12") = 100
      ∧ calculate_safety_score (newBuildProperty "2026-10-12") ⟨2026, 10, 12⟩
          = 90
      ∧ calculate_environmental_score (newBuildProperty "2026-10-12") = 80
      ∧ calculate_overall_score (newBuildProperty "2026-10-12") ⟨2026, 10, 12⟩
          = 951/10 :=
  newBuild_scenario_scores ⟨2026, 10, 12⟩ "2026-10-12" (by decide)
    (by norm_num) (by norm_num)

/-! ### Claim C5: totality and documented defaults -/

/-- Claim C5: the scoring path is total over all syntactically valid
properties and falls back to the documented defaults: an unknown
foundation type scores the default 75, an unknown roof material uses the
default 20-year expected life, a malformed (unparseable) non-`"N/A"`
`last_inspection` applies no inspection penalty, and the schedule
generator always returns (at least its five unconditional tasks). -/
theorem scoring_totality_and_defaults (p : Property) (today : Date) :
    (foundation_scores p.foundation_type = none →
        calculate_structural_score p today
          = round1 (calculate_age_score ((today.year : ℤ) - p.year_built) 80
                * (4/10)
              + ((75 : ℤ) : ℚ) * (3/10)
              + calculate_age_score p.roof_age
                  ((roof_material_expected_lifespans p.roof_material).getD 20)
                * (3/10)))
      ∧ (roof_material_expected_lifespans p.roof_material = none →
          calculate_structural_score p today
            = round1 (calculate_age_score ((today.year : ℤ) - p.year_built) 80
                  * (4/10)
                + (((foundation_scores p.foundation_type).getD 75 : ℤ) : ℚ)
                  * (3/10)
                + calculate_age_score p.roof_age 20 * (3/10)))
      ∧ (p.last_inspection ≠ "N/A" → parseDate p.last_inspection = none →
          calculate_safety_score p today
            = round1 (max 0 ((90 : ℚ)
                - (if 50 < (today.year : ℤ) - p.year_built then (15 : ℚ)
                    else if 30 < (today.year : ℤ) - p.year_built then 7
                    else 0)
                - (if 30 < p.electrical_age then (5 : ℚ) else 0)
                - 0)))
      ∧ 5 ≤ (generate_maintenance_schedule p).length := by
  refine ⟨?_, ?_, ?_, ?_⟩
  · intro hf
    simp only [calculate_structural_score, hf, Option.getD_none]
  · intro hr
    simp only [calculate_structural_score, hr, Option.getD_none]
  · intro hni hpn
    simp only [calculate_safety_score, hpn]
    rw [if_neg (by simp [hni] :
      ¬ (p.last_inspection = "N/A" ∧ 20 < (today.year : ℤ) - p.year_built)),
      if_pos hni]
  · have hlen := (List.mergeSort_perm (schedule_tasks p) schedLE).length_eq
    unfold generate_maintenance_schedule
    rw [hlen]
    unfold schedule_tasks
    simp only [List.length_append, apply_ite List.length, List.length_cons,
      List.length_nil]
    split_ifs <;> omega

/-- A property with unknown categorical values and a malformed
inspection date, used as the C5 witness. -/
def unknownProperty : Property :=
  ⟨"9 Any Rd", "Nowhere", "VA", "00000", 1980, 1500, "Cabin", "Thatch",
   5, "Igloo", 2, 2, 2, "not-a-date"⟩

/-- Witness for C5 on `unknownProperty` evaluated on 2026-01-01. -/
theorem scoring_totality_and_defaults_witness :
    calculate_structural_score unknownProperty ⟨2026, 1, 1⟩
        = round1 (calculate_age_score
              (((⟨2026, 1, 1⟩ : Date).year : ℤ) - unknownProperty.year_built)
              80 * (4/10)
            + ((75 : ℤ) : ℚ) * (3/10)
            + calculate_age_score unknownProperty.roof_age
                ((roof_material_expected_lifespans
                    unknownProperty.roof_material).getD 20)
              * (3/10))
      ∧ calculate_safety_score unknownProperty ⟨2026, 1, 1⟩
          = round1 (max 0 ((90 : ℚ)
              - (if 50 < ((⟨2026, 1, 1⟩ : Date).year : ℤ)
                      - unknownProperty.year_built then (15 : ℚ)
                  else if 30 < ((⟨2026, 1, 1⟩ : Date).year : ℤ)
                      - unknownProperty.year_built then 7
                  else 0)
              - (if 30 < unknownProperty.electrical_age then (5 : ℚ) else 0)
              - 0))
      ∧ 5 ≤ (generate_maintenance_schedule unknownProperty).length :=
  ⟨(scoring_totality_and_defaults unknownProperty ⟨2026, 1, 1⟩).1 (by decide),
   (scoring_totality_and_defaults unknownProperty ⟨2026, 1, 1⟩).2.2.1
     (by decide) (by decide),
   (scoring_totality_and_defaults unknownProperty ⟨2026, 1, 1⟩).2.2.2⟩

end Prophealth
